import Mathlib

/-!
Verification of the `postgres_to_es` incremental synchronization engine
(Async_API_sprint_2): a shallow embedding of the data model, the watermark
store, the change-source repository, the extraction orchestrator, the
document transformer, the loader's bulk call and the cycle controller,
together with theorems settling the specification claims.

Timestamps are modelled as `Nat` (the source's timezone-aware datetimes are
totally ordered and only compared/maximised; `datetime.min` is modelled as
`0`).  Entity ids are modelled as `Nat` (the source's UUIDs are opaque and
only tested for equality; the source's `str(...)` serialization of an id is
an injective encoding that the model elides, keeping the id itself).
-/

/-! ### Data model (src/postgres_to_es/data_extractor/models_db.py) -/

/-- Row of table `genre`: id, name, modified (fields used by the engine). -/
structure Genre where
  id : Nat
  name : String
  modified : Nat
deriving DecidableEq, Repr

/-- Row of table `person`: id, full_name, modified. -/
structure Person where
  id : Nat
  full_name : String
  modified : Nat
deriving DecidableEq, Repr

/-- Row of link table `genre_film_work`, with its `genre` relationship
resolved (the transformer guards against a missing `gfw.genre`, hence
`Option`). -/
structure GenreFilmWork where
  genre_id : Nat
  film_work_id : Nat
  genre : Option Genre
deriving DecidableEq, Repr

/-- Row of link table `person_film_work`, with its `person` relationship
resolved (the transformer guards against a missing `pfw.person`). -/
structure PersonFilmWork where
  role : String
  person_id : Nat
  film_work_id : Nat
  person : Option Person
deriving DecidableEq, Repr

/-- Row of table `film_work` with its nested `genres` / `persons`
relationships (eagerly loaded by the repository's detail queries).
`rating` is kept abstract as an optional number; it is only passed
through by the transformer. -/
structure FilmWork where
  id : Nat
  title : String
  description : Option String
  rating : Option Int
  modified : Nat
  genres : List GenreFilmWork
  persons : List PersonFilmWork
deriving DecidableEq, Repr

/-- The relational source: the five tables the repository queries. -/
structure Db where
  film_works : List FilmWork
  genres : List Genre
  persons : List Person
  genre_film_works : List GenreFilmWork
  person_film_works : List PersonFilmWork
deriving Repr

/-! ### Ordering by `modified` (SQL `ORDER BY modified`) -/

/-- Comparison of two rows by a numeric projection (their `modified`
timestamp). -/
def modLE {α : Type} (f : α → Nat) (a b : α) : Prop := f a ≤ f b

instance {α : Type} (f : α → Nat) : DecidableRel (modLE f) :=
  fun a b => inferInstanceAs (Decidable (f a ≤ f b))

instance {α : Type} (f : α → Nat) : IsTotal α (modLE f) :=
  ⟨fun a b => Nat.le_total (f a) (f b)⟩

instance {α : Type} (f : α → Nat) : IsTrans α (modLE f) :=
  ⟨fun _ _ _ hab hbc => Nat.le_trans hab hbc⟩

/-- Python's `max(...)` over a list of naturals (the source only applies it
to non-empty generators, where this fold computes the same value). -/
def listMax (l : List Nat) : Nat := l.foldl Nat.max 0

/-! ### Watermark store (src/postgres_to_es/data_extractor/state.py) -/

/-- The JSON object persisted by `JsonFileStorage`, as an ordered
key-value mapping (Python dicts preserve insertion order). -/
abbrev StateMap (α : Type) : Type := List (String × α)

/-- Python `dict` single-key update: an existing key keeps its position and
gets the new value, a new key is appended at the end. -/
def dictUpdate {α : Type} (d : StateMap α) (k : String) (v : α) : StateMap α :=
  if d.any (fun p => p.1 == k) then
    d.map (fun p => if p.1 == k then (k, v) else p)
  else
    d ++ [(k, v)]

/-- `JsonFileStorage.save_state`: read the stored mapping, `update` it with
the given mapping, write the merge back. -/
def save_state {α : Type} (file : StateMap α) (state : StateMap α) : StateMap α :=
  state.foldl (fun acc kv => dictUpdate acc kv.1 kv.2) file

/-- `State.set_state`: single-key write through `save_state`. -/
def set_state {α : Type} (file : StateMap α) (key : String) (value : α) : StateMap α :=
  save_state file [(key, value)]

/-- `State.get_state`: `retrieve_state().get(key)` (absent key gives
`none`). -/
def get_state {α : Type} (file : StateMap α) (key : String) : Option α :=
  List.lookup key file

/-! ### Change source repository (src/postgres_to_es/data_extractor/repository.py)

Each query is the direct reading of its SQL statement: `WHERE` is a filter,
`ORDER BY modified` sorts by the timestamp, `LIMIT` takes a prefix,
`DISTINCT` after the join is a consequence of filtering the base table. -/

namespace Repository

/-- `get_updated_persons`: persons with `modified > last_modified`, ordered
by `modified`, limited to `load_limit`. -/
def get_updated_persons (db : Db) (load_limit : Nat) (last_modified : Nat) :
    List Person :=
  List.take load_limit
    (List.insertionSort (modLE Person.modified)
      (db.persons.filter (fun p => last_modified < p.modified)))

/-- `get_updated_genres`: genres with `modified > last_modified`, ordered by
`modified`, limited to `load_limit`. -/
def get_updated_genres (db : Db) (load_limit : Nat) (last_modified : Nat) :
    List Genre :=
  List.take load_limit
    (List.insertionSort (modLE Genre.modified)
      (db.genres.filter (fun g => last_modified < g.modified)))

/-- `get_fw_by_updated_persons`: films joined to `person_film_work` rows
whose `person_id` is among the given ids, ordered by `modified`, limited,
distinct. -/
def get_fw_by_updated_persons (db : Db) (load_limit : Nat)
    (person_ids : List Nat) : List FilmWork :=
  List.take load_limit
    (List.insertionSort (modLE FilmWork.modified)
      (db.film_works.filter (fun fw =>
        db.person_film_works.any (fun pfw =>
          pfw.film_work_id == fw.id && person_ids.contains pfw.person_id))))

/-- `get_fw_by_updated_genres`: films joined to `genre_film_work` rows whose
`genre_id` is among the given ids, ordered by `modified`, limited,
distinct. -/
def get_fw_by_updated_genres (db : Db) (load_limit : Nat)
    (genre_ids : List Nat) : List FilmWork :=
  List.take load_limit
    (List.insertionSort (modLE FilmWork.modified)
      (db.film_works.filter (fun fw =>
        db.genre_film_works.any (fun gfw =>
          gfw.film_work_id == fw.id && genre_ids.contains gfw.genre_id))))

/-- `get_updated_filmworks_by_id`: films whose id is among the given ids,
with nested links eagerly resolved (no ordering, no limit in the source). -/
def get_updated_filmworks_by_id (db : Db) (film_work_ids : List Nat) :
    List FilmWork :=
  db.film_works.filter (fun fw => film_work_ids.contains fw.id)

/-- `get_updated_filmworks_by_timestamp`: films with
`modified > last_modified`, ordered by `modified`, limited. -/
def get_updated_filmworks_by_timestamp (db : Db) (load_limit : Nat)
    (last_modified : Nat) : List FilmWork :=
  List.take load_limit
    (List.insertionSort (modLE FilmWork.modified)
      (db.film_works.filter (fun fw => last_modified < fw.modified)))

end Repository

/-! ### Batch types (dataclasses in repository.py) -/

/-- `BaseDataState`/`FilmWorkDataState`: stream name, new watermark cursor
(`none` models the stored `None`), film records. -/
structure FilmWorkDataState where
  model : String
  new_state : Option Nat
  data : List FilmWork
deriving DecidableEq, Repr

/-- `GenreDataState`. -/
structure GenreDataState where
  model : String
  new_state : Option Nat
  data : List Genre
deriving DecidableEq, Repr

/-- `PersonDataState`. -/
structure PersonDataState where
  model : String
  new_state : Option Nat
  data : List Person
deriving DecidableEq, Repr

/-! ### Extraction orchestrator (src/postgres_to_es/data_extractor/main.py)

Each `_get_*` method reads one stream's stored cursor, polls the repository
and builds the stream's batch.  The stored cursor value read by
`state.get_state` is passed in as `current_state`; `datetime.min` (used when
the cursor is absent) is modelled as `0`. -/

/-- `datetime.min if current_state is None else fromisoformat(...)`. -/
def lastModifiedOf (current_state : Option Nat) : Nat :=
  match current_state with
  | none => 0
  | some t => t

namespace DataExtractor

/-- `_get_updated_genres`. -/
def get_updated_genres (db : Db) (load_limit : Nat)
    (current_state : Option Nat) : GenreDataState :=
  let genres := Repository.get_updated_genres db load_limit
    (lastModifiedOf current_state)
  if genres.isEmpty then
    { model := "genres", new_state := current_state, data := [] }
  else
    { model := "genres",
      new_state := some (listMax (genres.map Genre.modified)),
      data := genres }

/-- `_get_updated_persons`. -/
def get_updated_persons (db : Db) (load_limit : Nat)
    (current_state : Option Nat) : PersonDataState :=
  let persons := Repository.get_updated_persons db load_limit
    (lastModifiedOf current_state)
  if persons.isEmpty then
    { model := "persons", new_state := current_state, data := [] }
  else
    { model := "persons",
      new_state := some (listMax (persons.map Person.modified)),
      data := persons }

/-- `_get_fw_by_updated_persons`. -/
def get_fw_by_updated_persons (db : Db) (load_limit : Nat)
    (current_state : Option Nat) : FilmWorkDataState :=
  let persons := Repository.get_updated_persons db load_limit
    (lastModifiedOf current_state)
  if persons.isEmpty then
    { model := "fw_persons", new_state := current_state, data := [] }
  else
    let person_ids := persons.map Person.id
    let new_state := some (listMax (persons.map Person.modified))
    let film_works := Repository.get_fw_by_updated_persons db load_limit
      person_ids
    if film_works.isEmpty then
      { model := "fw_persons", new_state := new_state, data := [] }
    else
      let film_work_ids := film_works.map FilmWork.id
      { model := "fw_persons",
        new_state := new_state,
        data := Repository.get_updated_filmworks_by_id db film_work_ids }

/-- `_get_fw_by_updated_genres`. -/
def get_fw_by_updated_genres (db : Db) (load_limit : Nat)
    (current_state : Option Nat) : FilmWorkDataState :=
  let genres := Repository.get_updated_genres db load_limit
    (lastModifiedOf current_state)
  if genres.isEmpty then
    { model := "fw_genres", new_state := current_state, data := [] }
  else
    let genre_ids := genres.map Genre.id
    let new_state := some (listMax (genres.map Genre.modified))
    let film_works := Repository.get_fw_by_updated_genres db load_limit
      genre_ids
    if film_works.isEmpty then
      { model := "fw_genres", new_state := new_state, data := [] }
    else
      let film_work_ids := film_works.map FilmWork.id
      { model := "fw_genres",
        new_state := new_state,
        data := Repository.get_updated_filmworks_by_id db film_work_ids }

/-- `_get_updated_filmworks`. -/
def get_updated_filmworks (db : Db) (load_limit : Nat)
    (current_state : Option Nat) : FilmWorkDataState :=
  let film_works := Repository.get_updated_filmworks_by_timestamp db
    load_limit (lastModifiedOf current_state)
  if film_works.isEmpty then
    { model := "filmworks", new_state := current_state, data := film_works }
  else
    { model := "filmworks",
      new_state := some (listMax (film_works.map FilmWork.modified)),
      data := film_works }

end DataExtractor

/-- Result of `DataExtractor.extract_data`: the tuple
`((fw_persons, fw_genres, filmworks), genres, persons)`. -/
structure ExtractOut where
  fw_persons : FilmWorkDataState
  fw_genres : FilmWorkDataState
  filmworks : FilmWorkDataState
  genres : GenreDataState
  persons : PersonDataState
deriving Repr

/-- `DataExtractor.extract_data`, reading the five cursors from the stored
watermark mapping. -/
def extract_data (db : Db) (load_limit : Nat) (st : StateMap (Option Nat)) :
    ExtractOut :=
  { fw_persons := DataExtractor.get_fw_by_updated_persons db load_limit
      ((get_state st "fw_persons").join)
    fw_genres := DataExtractor.get_fw_by_updated_genres db load_limit
      ((get_state st "fw_genres").join)
    filmworks := DataExtractor.get_updated_filmworks db load_limit
      ((get_state st "filmworks").join)
    genres := DataExtractor.get_updated_genres db load_limit
      ((get_state st "genres").join)
    persons := DataExtractor.get_updated_persons db load_limit
      ((get_state st "persons").join) }

/-! ### Document transformer (src/postgres_to_es/data_transformer/main.py) -/

/-- Genre entry of a film document / document of the `genres` index:
`{'id': ..., 'name': ...}`. -/
structure GenreDoc where
  id : Nat
  name : String
deriving DecidableEq, Repr

/-- Person entry of a film document / document of the `persons` index:
`{'id': ..., 'name': ...}`. -/
structure PersonDoc where
  id : Nat
  name : String
deriving DecidableEq, Repr

/-- The film document built by `_transform_by_film` (the dict's keys become
fields). -/
structure FilmDoc where
  id : Nat
  imdb_rating : Option Int
  genres : List GenreDoc
  title : String
  description : String
  directors_names : String
  actors_names : String
  writers_names : String
  directors : List PersonDoc
  actors : List PersonDoc
  writers : List PersonDoc
deriving DecidableEq, Repr

namespace DataTransformer

/-- `_group_persons_by_role`: one pass over the film's person links,
skipping links with a missing person and appending to the role's list;
unknown roles are dropped. -/
def group_persons_by_role (persons : List PersonFilmWork) :
    List PersonDoc × List PersonDoc × List PersonDoc :=
  persons.foldl
    (fun acc pfw =>
      match pfw.person with
      | none => acc
      | some person =>
        let person_data : PersonDoc := { id := person.id, name := person.full_name }
        if pfw.role = "director" then (acc.1 ++ [person_data], acc.2.1, acc.2.2)
        else if pfw.role = "actor" then (acc.1, acc.2.1 ++ [person_data], acc.2.2)
        else if pfw.role = "writer" then (acc.1, acc.2.1, acc.2.2 ++ [person_data])
        else acc)
    ([], [], [])

/-- `_transform_by_film`: genre links with a present genre and a non-empty
name, role groups, the three joined name fields, and `description or ''`. -/
def transform_by_film (film : FilmWork) : FilmDoc :=
  let genres := film.genres.filterMap (fun gfw =>
    match gfw.genre with
    | some g => if g.name ≠ "" then some ({ id := g.id, name := g.name } : GenreDoc) else none
    | none => none)
  let roles := group_persons_by_role film.persons
  { id := film.id
    imdb_rating := film.rating
    genres := genres
    title := film.title
    description := film.description.getD ""
    directors_names := String.intercalate ", " (roles.1.map PersonDoc.name)
    actors_names := String.intercalate ", " (roles.2.1.map PersonDoc.name)
    writers_names := String.intercalate ", " (roles.2.2.map PersonDoc.name)
    directors := roles.1
    actors := roles.2.1
    writers := roles.2.2 }

/-- Python `dict.setdefault(film.id, film)` on an insertion-ordered
association list: keep an existing key, otherwise append at the end. -/
def setdefaultFilm (d : List (Nat × FilmWork)) (film : FilmWork) :
    List (Nat × FilmWork) :=
  if d.any (fun p => p.1 == film.id) then d else d ++ [(film.id, film)]

/-- `transform_data`: cross-batch dedup of the film lists keyed by film id
(first occurrence wins, iteration in the order the batches were passed),
then per-film transformation, plus the field projections of genres and
persons. -/
def transform_data (data_films : List (List FilmWork)) (data_genres : List Genre)
    (data_persons : List Person) :
    List FilmDoc × List GenreDoc × List PersonDoc :=
  let unique_films : List (Nat × FilmWork) :=
    data_films.foldl (fun d film_list => film_list.foldl setdefaultFilm d) []
  let transformed_films_data := unique_films.map (fun p => transform_by_film p.2)
  let transformed_genres_data := data_genres.map
    (fun g => ({ id := g.id, name := g.name } : GenreDoc))
  let transformed_persons_data := data_persons.map
    (fun p => ({ id := p.id, name := p.full_name } : PersonDoc))
  (transformed_films_data, transformed_genres_data, transformed_persons_data)

end DataTransformer

/-! ### Loader (src/postgres_to_es/data_loader/main.py) -/

/-- Per-document outcome reported in the document store's bulk response
(`ok = false`: the document was rejected, with no transport-level error). -/
structure BulkItemResult where
  ok : Bool
deriving DecidableEq, Repr

/-- The `BulkIndexError` raised by the client helper, carrying the failed
documents (here: their count). -/
structure BulkIndexError where
  failed : Nat
deriving DecidableEq, Repr

/-- Modelled from the documented contract of the third-party
`elasticsearch.helpers.bulk` (called by `DataLoader._bulk_request_to_es`):
with `stats_only=True` it returns the pair `(success_count, error_count)`;
with `raise_on_error=True` it raises `BulkIndexError` as soon as any
document of the bulk response was rejected, instead of returning. -/
def helpers_bulk (raise_on_error : Bool) (items : List BulkItemResult) :
    Except BulkIndexError (Nat × Nat) :=
  let failures := (items.filter (fun i => !i.ok)).length
  let successes := (items.filter (fun i => i.ok)).length
  if raise_on_error && failures != 0 then
    Except.error { failed := failures }
  else
    Except.ok (successes, failures)

namespace DataLoader

/-- `_bulk_request_to_es`: calls `helpers.bulk` with `stats_only=True` and
`raise_on_error=True`, then logs the error count (if any) and the success
count.  Logging is effect-free in the model; the call's outcome (normal
return or raised `BulkIndexError`) is the returned `Except`. -/
def bulk_request_to_es (items : List BulkItemResult) :
    Except BulkIndexError (Nat × Nat) :=
  helpers_bulk true items

end DataLoader

/-! ### Cycle controller (src/postgres_to_es/etl_process/main.py)

One iteration of `ETLProcess.start_process`'s `while True` body.  The three
stages perform I/O and may raise; the model takes each stage's outcome as an
`Except` value: `extract` is the outcome of `extract_data`, `transform` the
outcome of `transform_data` on the extracted batches, and the three loads
are the outcomes of `load_data`'s three per-index bulk deliveries
(`movies`, `genres`, `persons`).  Watermark writes (`set_state`) are pure
state-map updates. -/

/-- Output of the transform stage: the three document lists. -/
structure Docs where
  films : List FilmDoc
  genres : List GenreDoc
  persons : List PersonDoc
deriving Repr

/-- `DataLoader.load_data`: the three per-index deliveries, run in order;
the first raised error aborts the rest and propagates. -/
def load_data {E : Type} (load_movies load_genres load_persons : Except E Unit) :
    Except E Unit := do
  load_movies
  load_genres
  load_persons

/-- The watermark-commit block of `start_process`: `set_state` for the three
film-bearing batches (in the tuple's order), then genres, then persons. -/
def commitStates (raw : ExtractOut) (st : StateMap (Option Nat)) :
    StateMap (Option Nat) :=
  let st := [raw.fw_persons, raw.fw_genres, raw.filmworks].foldl
    (fun s d => set_state s d.model d.new_state) st
  let st := set_state st raw.genres.model raw.genres.new_state
  set_state st raw.persons.model raw.persons.new_state

/-- One iteration of `start_process`'s loop body: run
extract → transform → the three bulk deliveries; on success commit the five
watermarks, on any raised error the `except` clause logs and leaves the
stored mapping untouched. -/
def start_process_cycle {E : Type} (extract : Except E ExtractOut)
    (transform : ExtractOut → Except E Docs)
    (load_movies load_genres load_persons : Docs → Except E Unit)
    (st : StateMap (Option Nat)) : StateMap (Option Nat) :=
  match extract with
  | Except.error _ => st
  | Except.ok raw =>
    match transform raw with
    | Except.error _ => st
    | Except.ok docs =>
      match load_data (load_movies docs) (load_genres docs) (load_persons docs) with
      | Except.error _ => st
      | Except.ok _ => commitStates raw st

/-! ### Helper lemmas: folded maximum -/

lemma le_foldl_max (l : List Nat) (b : Nat) : b ≤ l.foldl Nat.max b := by
  induction l generalizing b with
  | nil => exact Nat.le_refl b
  | cons a t ih => exact Nat.le_trans (Nat.le_max_left b a) (ih (Nat.max b a))

lemma mem_le_foldl_max {a : Nat} (l : List Nat) (b : Nat) (h : a ∈ l) :
    a ≤ l.foldl Nat.max b := by
  induction l generalizing b with
  | nil => cases h
  | cons c t ih =>
    rcases List.mem_cons.mp h with rfl | hmem
    · exact Nat.le_trans (Nat.le_max_right b a) (le_foldl_max t (Nat.max b a))
    · exact ih (Nat.max b c) hmem

lemma foldl_max_mem (l : List Nat) (b : Nat) :
    l.foldl Nat.max b = b ∨ l.foldl Nat.max b ∈ l := by
  induction l generalizing b with
  | nil => exact Or.inl rfl
  | cons a t ih =>
    rcases ih (Nat.max b a) with h | h
    · rcases Nat.le_total a b with hab | hba
      · exact Or.inl (by rw [List.foldl_cons, h]; exact Nat.max_eq_left hab)
      · refine Or.inr ?_
        rw [List.foldl_cons, h]
        have hm : Nat.max b a = a := Nat.max_eq_right hba
        rw [hm]
        exact List.mem_cons_self a t
    · exact Or.inr (List.mem_cons_of_mem a h)

lemma foldl_max_le (l : List Nat) (b m : Nat) (hb : b ≤ m)
    (hl : ∀ a ∈ l, a ≤ m) : l.foldl Nat.max b ≤ m := by
  induction l generalizing b with
  | nil => exact hb
  | cons a t ih =>
    exact ih (Nat.max b a)
      (Nat.max_le.mpr ⟨hb, hl a (List.mem_cons_self a t)⟩)
      (fun x hx => hl x (List.mem_cons_of_mem a hx))

lemma le_listMax {a : Nat} {l : List Nat} (h : a ∈ l) : a ≤ listMax l :=
  mem_le_foldl_max l 0 h

lemma listMax_le {l : List Nat} {m : Nat} (h : ∀ a ∈ l, a ≤ m) : listMax l ≤ m :=
  foldl_max_le l 0 m (Nat.zero_le m) h

lemma listMax_mem {l : List Nat} (h : l ≠ []) : listMax l ∈ l := by
  rcases foldl_max_mem l 0 with h0 | hmem
  · cases l with
    | nil => exact absurd rfl h
    | cons a t =>
      have ha : a ≤ listMax (a :: t) := le_listMax (List.mem_cons_self a t)
      have : a = 0 := Nat.le_zero.mp (by rw [← h0]; exact ha)
      rw [listMax, h0, ← this]
      exact List.mem_cons_self a t
  · exact hmem

lemma listMax_map_gt {α : Type} (f : α → Nat) {l : List α} {w : Nat}
    (hne : l ≠ []) (hall : ∀ x ∈ l, w < f x) : w < listMax (l.map f) := by
  have hne' : l.map f ≠ [] := by
    cases l with
    | nil => exact absurd rfl hne
    | cons a t => simp
  have hmem := listMax_mem hne'
  rcases List.mem_map.mp hmem with ⟨x, hx, hfx⟩
  rw [← hfx]
  exact hall x hx

/-! ### Helper lemmas: the sorted, limited polls -/

lemma mem_poll_gt {α : Type} (f : α → Nat) (base : List α) (L w : Nat) {x : α}
    (hx : x ∈ List.take L (List.insertionSort (modLE f)
      (base.filter (fun r => w < f r)))) : w < f x := by
  have h1 : x ∈ List.insertionSort (modLE f) (base.filter (fun r => w < f r)) :=
    List.mem_of_mem_take hx
  have h2 : x ∈ base.filter (fun r => w < f r) :=
    (List.mem_insertionSort (modLE f)).mp h1
  have h3 := List.of_mem_filter h2
  exact of_decide_eq_true h3

lemma sorted_poll {α : Type} (f : α → Nat) (base : List α) (L w : Nat) :
    List.Sorted (modLE f) (List.take L (List.insertionSort (modLE f)
      (base.filter (fun r => w < f r)))) :=
  List.Pairwise.sublist (List.take_sublist L _)
    (List.sorted_insertionSort (modLE f) _)

lemma mem_of_getLast? {α : Type} : ∀ {l : List α} {p : α},
    l.getLast? = some p → p ∈ l
  | [], _, h => by cases h
  | [a], p, h => by
    have : a = p := by simpa [List.getLast?] using h
    rw [this]; exact List.mem_singleton_self p
  | a :: b :: t, p, h => by
    have h' : (b :: t).getLast? = some p := by
      simpa [List.getLast?_cons_cons] using h
    exact List.mem_cons_of_mem a (mem_of_getLast? h')

lemma sorted_getLast?_ge {α : Type} (f : α → Nat) :
    ∀ {l : List α}, List.Sorted (modLE f) l →
      ∀ {p : α}, l.getLast? = some p → ∀ x ∈ l, f x ≤ f p
  | [], _, _, h, _, _ => by cases h
  | [a], _, p, h, x, hx => by
    have hap : a = p := by simpa [List.getLast?] using h
    have hxa : x = a := by simpa using hx
    rw [hxa, hap]
  | a :: b :: t, hs, p, h, x, hx => by
    have h' : (b :: t).getLast? = some p := by
      simpa [List.getLast?_cons_cons] using h
    have hs' : List.Sorted (modLE f) (b :: t) := hs.of_cons
    rcases List.mem_cons.mp hx with rfl | hmem
    · have hp : p ∈ b :: t := mem_of_getLast? h'
      exact List.rel_of_sorted_cons hs p hp
    · exact sorted_getLast?_ge f hs' h' x hmem

lemma listMax_map_getLast {α : Type} (f : α → Nat) {l : List α} {p : α}
    (hs : List.Sorted (modLE f) l) (h : l.getLast? = some p) :
    listMax (l.map f) = f p := by
  apply Nat.le_antisymm
  · exact listMax_le (fun a ha => by
      rcases List.mem_map.mp ha with ⟨x, hx, rfl⟩
      exact sorted_getLast?_ge f hs h x hx)
  · exact le_listMax (List.mem_map_of_mem f (mem_of_getLast? h))

/-! ### Helper lemmas: the watermark store -/

lemma lookup_cons_pair {α β : Type} [BEq α] (k a : α) (b : β)
    (t : List (α × β)) :
    List.lookup k ((a, b) :: t) =
      if k == a then some b else List.lookup k t := by
  rw [List.lookup]
  cases k == a <;> simp

lemma lookup_map_overwrite {α : Type} (d : StateMap α) (key : String) (value : α)
    (other : String) (h : other ≠ key) :
    List.lookup other (d.map (fun p => if p.1 == key then (key, value) else p)) =
      List.lookup other d := by
  induction d with
  | nil => rfl
  | cons p t ih =>
    rcases p with ⟨pk, pv⟩
    have hok : (other == key) = false := beq_false_of_ne h
    simp only [List.map_cons]
    by_cases hp : pk = key
    · subst hp
      rw [if_pos (by simp), lookup_cons_pair, lookup_cons_pair, hok]
      simpa using ih
    · rw [if_neg (by simpa using hp), lookup_cons_pair, lookup_cons_pair]
      by_cases ho : other = pk
      · rw [if_pos (by simp [ho]), if_pos (by simp [ho])]
      · rw [if_neg (by simpa using ho), if_neg (by simpa using ho)]
        exact ih

lemma lookup_append_other {α : Type} (d : StateMap α) (key : String) (value : α)
    (other : String) (h : other ≠ key) :
    List.lookup other (d ++ [(key, value)]) = List.lookup other d := by
  rw [List.lookup_append]
  have hok : (other == key) = false := beq_false_of_ne h
  simp [List.lookup, hok]

/-- Claim C9. Frame property of the watermark store: the single-key
read-modify-write performed by `State.set_state` (through
`JsonFileStorage.save_state`: read the stored mapping, merge the one key,
write the merge back) leaves the stored value of every other key
unchanged. -/
theorem set_state_preserves_other_keys {α : Type} (file : StateMap α)
    (key : String) (value : α) (other : String) (h : other ≠ key) :
    get_state (set_state file key value) other = get_state file other := by
  have hred : set_state file key value = dictUpdate file key value := rfl
  rw [hred]
  unfold dictUpdate get_state
  by_cases hany : file.any (fun p => p.1 == key) = true
  · rw [if_pos hany]
    exact lookup_map_overwrite file key value other h
  · rw [if_neg hany]
    exact lookup_append_other file key value other h

/-- Witness for C9: writing the `persons` watermark leaves the stored
`genres` watermark untouched. -/
theorem set_state_preserves_other_keys_witness :
    get_state (set_state [("genres", some 7)] "persons" (some 9)) "genres" =
      get_state [("genres", (some 7 : Option Nat))] "genres" :=
  set_state_preserves_other_keys [("genres", some 7)] "persons" (some 9)
    "genres" (by decide)

/-- Claim C4 (code evaluation at the failing input). A bulk delivery in
which the document store rejects one of two documents with no
transport-level error: because the source calls `helpers.bulk` with
`raise_on_error=True`, `_bulk_request_to_es` raises `BulkIndexError`
instead of logging the count and returning normally (the `if errors:`
logging branch is unreachable). -/
theorem bulk_partial_failure_raises :
    DataLoader.bulk_request_to_es [{ ok := true }, { ok := false }] =
      Except.error { failed := 1 } := rfl

/-! ### Cycle controller claims -/

lemma load_data_ok {E : Type} {a b c : Except E Unit} {u : Unit}
    (h : load_data a b c = Except.ok u) :
    a = Except.ok () ∧ b = Except.ok () ∧ c = Except.ok () := by
  cases a with
  | error e => simp [load_data, Bind.bind, Except.bind] at h
  | ok ua =>
    cases b with
    | error e => simp [load_data, Bind.bind, Except.bind] at h
    | ok ub =>
      cases c with
      | error e => simp [load_data, Bind.bind, Except.bind] at h
      | ok uc => exact ⟨rfl, rfl, rfl⟩

/-- Claim C1. In one cycle of `ETLProcess.start_process`, the five
watermark writes happen only after extraction, transformation and the
Loader's three bulk deliveries all return without raising: if any of these
steps raises, the stored watermark mapping is returned unchanged; and if
the stored mapping changed at all, every step returned without raising. -/
theorem commit_only_after_successful_load {E : Type}
    (extract : Except E ExtractOut) (transform : ExtractOut → Except E Docs)
    (lm lg lp : Docs → Except E Unit) (st : StateMap (Option Nat)) :
    ((∃ e, extract = Except.error e) ∨
      (∃ raw e, extract = Except.ok raw ∧ transform raw = Except.error e) ∨
      (∃ raw docs e, extract = Except.ok raw ∧ transform raw = Except.ok docs ∧
        load_data (lm docs) (lg docs) (lp docs) = Except.error e) →
      start_process_cycle extract transform lm lg lp st = st) ∧
    (start_process_cycle extract transform lm lg lp st ≠ st →
      ∃ raw docs, extract = Except.ok raw ∧ transform raw = Except.ok docs ∧
        lm docs = Except.ok () ∧ lg docs = Except.ok () ∧ lp docs = Except.ok ()) := by
  constructor
  · intro h
    rcases h with ⟨e, he⟩ | ⟨raw, e, hraw, ht⟩ | ⟨raw, docs, e, hraw, ht, hl⟩
    · simp [start_process_cycle, he]
    · simp [start_process_cycle, hraw, ht]
    · simp [start_process_cycle, hraw, ht, hl]
  · intro hne
    cases hext : extract with
    | error e =>
      exact absurd (by simp [start_process_cycle, hext]) hne
    | ok raw =>
      cases htr : transform raw with
      | error e =>
        exact absurd (by simp [start_process_cycle, hext, htr]) hne
      | ok docs =>
        cases hld : load_data (lm docs) (lg docs) (lp docs) with
        | error e =>
          exact absurd (by simp [start_process_cycle, hext, htr, hld]) hne
        | ok u =>
          obtain ⟨h1, h2, h3⟩ := load_data_ok hld
          exact ⟨raw, docs, rfl, htr, h1, h2, h3⟩

/-- Witness for C1: a cycle whose extraction step raises leaves a concrete
stored mapping unchanged. -/
theorem commit_only_after_successful_load_witness :
    start_process_cycle (E := Unit) (Except.error ())
      (fun _ => Except.ok { films := [], genres := [], persons := [] })
      (fun _ => Except.ok ()) (fun _ => Except.ok ()) (fun _ => Except.ok ())
      [("genres", some 7)] = [("genres", some 7)] :=
  (commit_only_after_successful_load (Except.error ())
      (fun _ => Except.ok { films := [], genres := [], persons := [] })
      (fun _ => Except.ok ()) (fun _ => Except.ok ()) (fun _ => Except.ok ())
      [("genres", some 7)]).1 (Or.inl ⟨(), rfl⟩)

/-! ### Helper lemmas: batch cursors per stream -/

lemma isEmpty_false_of_ne {α : Type} {l : List α} (h : l ≠ []) :
    l.isEmpty = false := List.isEmpty_eq_false.mpr h

lemma genres_batch_empty (db : Db) (L : Nat) (cs : Option Nat)
    (he : Repository.get_updated_genres db L (lastModifiedOf cs) = []) :
    (DataExtractor.get_updated_genres db L cs).new_state = cs ∧
      (DataExtractor.get_updated_genres db L cs).data = [] := by
  constructor <;> simp [DataExtractor.get_updated_genres, he]

lemma genres_batch_ne (db : Db) (L : Nat) (cs : Option Nat)
    (hne : Repository.get_updated_genres db L (lastModifiedOf cs) ≠ []) :
    (DataExtractor.get_updated_genres db L cs).new_state =
      some (listMax ((Repository.get_updated_genres db L
        (lastModifiedOf cs)).map Genre.modified)) ∧
    (DataExtractor.get_updated_genres db L cs).data =
      Repository.get_updated_genres db L (lastModifiedOf cs) := by
  constructor <;>
    simp [DataExtractor.get_updated_genres, isEmpty_false_of_ne hne]

lemma persons_batch_empty (db : Db) (L : Nat) (cs : Option Nat)
    (he : Repository.get_updated_persons db L (lastModifiedOf cs) = []) :
    (DataExtractor.get_updated_persons db L cs).new_state = cs ∧
      (DataExtractor.get_updated_persons db L cs).data = [] := by
  constructor <;> simp [DataExtractor.get_updated_persons, he]

lemma persons_batch_ne (db : Db) (L : Nat) (cs : Option Nat)
    (hne : Repository.get_updated_persons db L (lastModifiedOf cs) ≠ []) :
    (DataExtractor.get_updated_persons db L cs).new_state =
      some (listMax ((Repository.get_updated_persons db L
        (lastModifiedOf cs)).map Person.modified)) ∧
    (DataExtractor.get_updated_persons db L cs).data =
      Repository.get_updated_persons db L (lastModifiedOf cs) := by
  constructor <;>
    simp [DataExtractor.get_updated_persons, isEmpty_false_of_ne hne]

lemma filmworks_batch_empty (db : Db) (L : Nat) (cs : Option Nat)
    (he : Repository.get_updated_filmworks_by_timestamp db L
      (lastModifiedOf cs) = []) :
    (DataExtractor.get_updated_filmworks db L cs).new_state = cs ∧
      (DataExtractor.get_updated_filmworks db L cs).data = [] := by
  constructor <;> simp [DataExtractor.get_updated_filmworks, he]

lemma filmworks_batch_ne (db : Db) (L : Nat) (cs : Option Nat)
    (hne : Repository.get_updated_filmworks_by_timestamp db L
      (lastModifiedOf cs) ≠ []) :
    (DataExtractor.get_updated_filmworks db L cs).new_state =
      some (listMax ((Repository.get_updated_filmworks_by_timestamp db L
        (lastModifiedOf cs)).map FilmWork.modified)) ∧
    (DataExtractor.get_updated_filmworks db L cs).data =
      Repository.get_updated_filmworks_by_timestamp db L (lastModifiedOf cs) := by
  constructor <;>
    simp [DataExtractor.get_updated_filmworks, isEmpty_false_of_ne hne]

lemma fw_persons_batch_empty (db : Db) (L : Nat) (cs : Option Nat)
    (he : Repository.get_updated_persons db L (lastModifiedOf cs) = []) :
    (DataExtractor.get_fw_by_updated_persons db L cs).new_state = cs ∧
      (DataExtractor.get_fw_by_updated_persons db L cs).data = [] := by
  constructor <;> simp [DataExtractor.get_fw_by_updated_persons, he]

lemma fw_persons_batch_ne (db : Db) (L : Nat) (cs : Option Nat)
    (hne : Repository.get_updated_persons db L (lastModifiedOf cs) ≠ []) :
    (DataExtractor.get_fw_by_updated_persons db L cs).new_state =
      some (listMax ((Repository.get_updated_persons db L
        (lastModifiedOf cs)).map Person.modified)) := by
  simp only [DataExtractor.get_fw_by_updated_persons,
    isEmpty_false_of_ne hne]
  split
  · next h => exact absurd h Bool.false_ne_true
  · split <;> rfl

lemma fw_genres_batch_empty (db : Db) (L : Nat) (cs : Option Nat)
    (he : Repository.get_updated_genres db L (lastModifiedOf cs) = []) :
    (DataExtractor.get_fw_by_updated_genres db L cs).new_state = cs ∧
      (DataExtractor.get_fw_by_updated_genres db L cs).data = [] := by
  constructor <;> simp [DataExtractor.get_fw_by_updated_genres, he]

lemma fw_genres_batch_ne (db : Db) (L : Nat) (cs : Option Nat)
    (hne : Repository.get_updated_genres db L (lastModifiedOf cs) ≠ []) :
    (DataExtractor.get_fw_by_updated_genres db L cs).new_state =
      some (listMax ((Repository.get_updated_genres db L
        (lastModifiedOf cs)).map Genre.modified)) := by
  simp only [DataExtractor.get_fw_by_updated_genres,
    isEmpty_false_of_ne hne]
  split
  · next h => exact absurd h Bool.false_ne_true
  · split <;> rfl

/-- Claim C2. For every stream, the committed watermark never decreases:
when the stream's timestamp poll matches zero rows, the batch keeps the
previous cursor; when the poll matches rows — each of which has
`modified` strictly greater than the previous watermark — the batch's
cursor is strictly greater than the previous one.  Stated for all five
streams (for the two indirect film streams the timestamp poll is the
parent persons/genres poll). -/
theorem watermark_monotone (db : Db) (L : Nat) (cs : Option Nat) :
    ((Repository.get_updated_genres db L (lastModifiedOf cs) = [] →
        (DataExtractor.get_updated_genres db L cs).new_state = cs) ∧
      (∀ w, cs = some w →
        Repository.get_updated_genres db L (lastModifiedOf cs) ≠ [] →
        ∃ w', (DataExtractor.get_updated_genres db L cs).new_state = some w' ∧
          w < w')) ∧
    ((Repository.get_updated_persons db L (lastModifiedOf cs) = [] →
        (DataExtractor.get_updated_persons db L cs).new_state = cs) ∧
      (∀ w, cs = some w →
        Repository.get_updated_persons db L (lastModifiedOf cs) ≠ [] →
        ∃ w', (DataExtractor.get_updated_persons db L cs).new_state = some w' ∧
          w < w')) ∧
    ((Repository.get_updated_filmworks_by_timestamp db L (lastModifiedOf cs) = [] →
        (DataExtractor.get_updated_filmworks db L cs).new_state = cs) ∧
      (∀ w, cs = some w →
        Repository.get_updated_filmworks_by_timestamp db L (lastModifiedOf cs) ≠ [] →
        ∃ w', (DataExtractor.get_updated_filmworks db L cs).new_state = some w' ∧
          w < w')) ∧
    ((Repository.get_updated_persons db L (lastModifiedOf cs) = [] →
        (DataExtractor.get_fw_by_updated_persons db L cs).new_state = cs) ∧
      (∀ w, cs = some w →
        Repository.get_updated_persons db L (lastModifiedOf cs) ≠ [] →
        ∃ w', (DataExtractor.get_fw_by_updated_persons db L cs).new_state = some w' ∧
          w < w')) ∧
    ((Repository.get_updated_genres db L (lastModifiedOf cs) = [] →
        (DataExtractor.get_fw_by_updated_genres db L cs).new_state = cs) ∧
      (∀ w, cs = some w →
        Repository.get_updated_genres db L (lastModifiedOf cs) ≠ [] →
        ∃ w', (DataExtractor.get_fw_by_updated_genres db L cs).new_state = some w' ∧
          w < w')) := by
  refine ⟨⟨?_, ?_⟩, ⟨?_, ?_⟩, ⟨?_, ?_⟩, ⟨?_, ?_⟩, ⟨?_, ?_⟩⟩
  · intro he; exact (genres_batch_empty db L cs he).1
  · intro w hcs hne
    subst hcs
    refine ⟨_, (genres_batch_ne db L (some w) hne).1, ?_⟩
    exact listMax_map_gt Genre.modified hne
      (fun x hx => mem_poll_gt Genre.modified db.genres L w hx)
  · intro he; exact (persons_batch_empty db L cs he).1
  · intro w hcs hne
    subst hcs
    refine ⟨_, (persons_batch_ne db L (some w) hne).1, ?_⟩
    exact listMax_map_gt Person.modified hne
      (fun x hx => mem_poll_gt Person.modified db.persons L w hx)
  · intro he; exact (filmworks_batch_empty db L cs he).1
  · intro w hcs hne
    subst hcs
    refine ⟨_, (filmworks_batch_ne db L (some w) hne).1, ?_⟩
    exact listMax_map_gt FilmWork.modified hne
      (fun x hx => mem_poll_gt FilmWork.modified db.film_works L w hx)
  · intro he; exact (fw_persons_batch_empty db L cs he).1
  · intro w hcs hne
    subst hcs
    refine ⟨_, fw_persons_batch_ne db L (some w) hne, ?_⟩
    exact listMax_map_gt Person.modified hne
      (fun x hx => mem_poll_gt Person.modified db.persons L w hx)
  · intro he; exact (fw_genres_batch_empty db L cs he).1
  · intro w hcs hne
    subst hcs
    refine ⟨_, fw_genres_batch_ne db L (some w) hne, ?_⟩
    exact listMax_map_gt Genre.modified hne
      (fun x hx => mem_poll_gt Genre.modified db.genres L w hx)

/-- Witness for C2: a cycle that sees one changed genre (modified at 5)
over a previous genre watermark of 3 commits a strictly greater cursor. -/
theorem watermark_monotone_witness :
    ∃ w', (DataExtractor.get_updated_genres
        { film_works := [], genres := [{ id := 1, name := "g", modified := 5 }],
          persons := [], genre_film_works := [], person_film_works := [] }
        100 (some 3)).new_state = some w' ∧ 3 < w' :=
  (watermark_monotone
      { film_works := [], genres := [{ id := 1, name := "g", modified := 5 }],
        persons := [], genre_film_works := [], person_film_works := [] }
      100 (some 3)).1.2 3 rfl (by decide)

/-- Counterexample to claim C3 as stated: with one changed person
(modified at 5) linked to no film and a previous `fw_persons` watermark of
3, the `fw_by_person` batch has an empty records list, yet its
`new_state` is 5, not the previous watermark 3. -/
theorem batch_empty_records_watermark_counterexample :
    (DataExtractor.get_fw_by_updated_persons
        { film_works := [], genres := [],
          persons := [{ id := 1, full_name := "p", modified := 5 }],
          genre_film_works := [], person_film_works := [] }
        100 (some 3)).data = [] ∧
    (DataExtractor.get_fw_by_updated_persons
        { film_works := [], genres := [],
          persons := [{ id := 1, full_name := "p", modified := 5 }],
          genre_film_works := [], person_film_works := [] }
        100 (some 3)).new_state ≠ some 3 := by
  constructor
  · rfl
  · decide

/-- Claim C3 (amended). For the direct streams (`persons`, `genres`,
`filmworks`) the invariant holds as stated: an empty records list keeps
the previous watermark and a non-empty one sets the maximum `modified`
over the records.  For the indirect streams (`fw_persons`, `fw_genres`)
the batch keeps the previous watermark exactly when the parent poll is
empty; whenever the parent poll is non-empty the new watermark is the
maximum `modified` over the polled parent rows — also when the film
records list is empty. -/
theorem batch_watermark_shape (db : Db) (L : Nat) (cs : Option Nat) :
    ((DataExtractor.get_updated_persons db L cs).data = [] →
        (DataExtractor.get_updated_persons db L cs).new_state = cs) ∧
    ((DataExtractor.get_updated_persons db L cs).data ≠ [] →
        (DataExtractor.get_updated_persons db L cs).new_state =
          some (listMax ((DataExtractor.get_updated_persons db L cs).data.map
            Person.modified))) ∧
    ((DataExtractor.get_updated_genres db L cs).data = [] →
        (DataExtractor.get_updated_genres db L cs).new_state = cs) ∧
    ((DataExtractor.get_updated_genres db L cs).data ≠ [] →
        (DataExtractor.get_updated_genres db L cs).new_state =
          some (listMax ((DataExtractor.get_updated_genres db L cs).data.map
            Genre.modified))) ∧
    ((DataExtractor.get_updated_filmworks db L cs).data = [] →
        (DataExtractor.get_updated_filmworks db L cs).new_state = cs) ∧
    ((DataExtractor.get_updated_filmworks db L cs).data ≠ [] →
        (DataExtractor.get_updated_filmworks db L cs).new_state =
          some (listMax ((DataExtractor.get_updated_filmworks db L cs).data.map
            FilmWork.modified))) ∧
    (Repository.get_updated_persons db L (lastModifiedOf cs) = [] →
        (DataExtractor.get_fw_by_updated_persons db L cs).new_state = cs ∧
        (DataExtractor.get_fw_by_updated_persons db L cs).data = []) ∧
    (Repository.get_updated_persons db L (lastModifiedOf cs) ≠ [] →
        (DataExtractor.get_fw_by_updated_persons db L cs).new_state =
          some (listMax ((Repository.get_updated_persons db L
            (lastModifiedOf cs)).map Person.modified))) ∧
    (Repository.get_updated_genres db L (lastModifiedOf cs) = [] →
        (DataExtractor.get_fw_by_updated_genres db L cs).new_state = cs ∧
        (DataExtractor.get_fw_by_updated_genres db L cs).data = []) ∧
    (Repository.get_updated_genres db L (lastModifiedOf cs) ≠ [] →
        (DataExtractor.get_fw_by_updated_genres db L cs).new_state =
          some (listMax ((Repository.get_updated_genres db L
            (lastModifiedOf cs)).map Genre.modified))) := by
  refine ⟨?_, ?_, ?_, ?_, ?_, ?_, ?_, ?_, ?_, ?_⟩
  · intro hdata
    by_cases hp : Repository.get_updated_persons db L (lastModifiedOf cs) = []
    · exact (persons_batch_empty db L cs hp).1
    · rw [(persons_batch_ne db L cs hp).2] at hdata
      exact absurd hdata hp
  · intro hdata
    by_cases hp : Repository.get_updated_persons db L (lastModifiedOf cs) = []
    · rw [(persons_batch_empty db L cs hp).2] at hdata
      exact absurd rfl hdata
    · have h2 := persons_batch_ne db L cs hp
      rw [h2.1, h2.2]
  · intro hdata
    by_cases hp : Repository.get_updated_genres db L (lastModifiedOf cs) = []
    · exact (genres_batch_empty db L cs hp).1
    · rw [(genres_batch_ne db L cs hp).2] at hdata
      exact absurd hdata hp
  · intro hdata
    by_cases hp : Repository.get_updated_genres db L (lastModifiedOf cs) = []
    · rw [(genres_batch_empty db L cs hp).2] at hdata
      exact absurd rfl hdata
    · have h2 := genres_batch_ne db L cs hp
      rw [h2.1, h2.2]
  · intro hdata
    by_cases hp : Repository.get_updated_filmworks_by_timestamp db L
        (lastModifiedOf cs) = []
    · exact (filmworks_batch_empty db L cs hp).1
    · rw [(filmworks_batch_ne db L cs hp).2] at hdata
      exact absurd hdata hp
  · intro hdata
    by_cases hp : Repository.get_updated_filmworks_by_timestamp db L
        (lastModifiedOf cs) = []
    · rw [(filmworks_batch_empty db L cs hp).2] at hdata
      exact absurd rfl hdata
    · have h2 := filmworks_batch_ne db L cs hp
      rw [h2.1, h2.2]
  · intro hp; exact fw_persons_batch_empty db L cs hp
  · intro hp; exact fw_persons_batch_ne db L cs hp
  · intro hp; exact fw_genres_batch_empty db L cs hp
  · intro hp; exact fw_genres_batch_ne db L cs hp

/-- Witness for the amended C3: on the counterexample source state, the
`fw_persons` cursor is the changed persons' maximum `modified`, 5. -/
theorem batch_watermark_shape_witness :
    (DataExtractor.get_fw_by_updated_persons
        { film_works := [], genres := [],
          persons := [{ id := 1, full_name := "q", modified := 5 }],
          genre_film_works := [], person_film_works := [] }
        100 (some 3)).new_state = some 5 := by
  have h := (batch_watermark_shape
      { film_works := [], genres := [],
        persons := [{ id := 1, full_name := "q", modified := 5 }],
        genre_film_works := [], person_film_works := [] }
      100 (some 3)).2.2.2.2.2.2.2.1 (by decide)
  exact h.trans (by decide)

/-- Claim C6. When the changed-persons poll is non-empty but the
person-to-film join yields no films, the `fw_by_person` batch has an
empty records list, yet its watermark advances to the maximum `modified`
among the changed persons. -/
theorem fw_by_person_no_films_still_advances (db : Db) (L : Nat)
    (cs : Option Nat)
    (hp : Repository.get_updated_persons db L (lastModifiedOf cs) ≠ [])
    (hf : Repository.get_fw_by_updated_persons db L
      ((Repository.get_updated_persons db L (lastModifiedOf cs)).map
        Person.id) = []) :
    (DataExtractor.get_fw_by_updated_persons db L cs).data = [] ∧
    (DataExtractor.get_fw_by_updated_persons db L cs).new_state =
      some (listMax ((Repository.get_updated_persons db L
        (lastModifiedOf cs)).map Person.modified)) := by
  constructor
  · simp [DataExtractor.get_fw_by_updated_persons, isEmpty_false_of_ne hp, hf]
  · exact fw_persons_batch_ne db L cs hp

/-- Witness for C6: one changed person (modified at 7) with no film
links. -/
theorem fw_by_person_no_films_still_advances_witness :
    (DataExtractor.get_fw_by_updated_persons
        { film_works := [], genres := [],
          persons := [{ id := 4, full_name := "r", modified := 7 }],
          genre_film_works := [], person_film_works := [] }
        10 none).data = [] ∧
    (DataExtractor.get_fw_by_updated_persons
        { film_works := [], genres := [],
          persons := [{ id := 4, full_name := "r", modified := 7 }],
          genre_film_works := [], person_film_works := [] }
        10 none).new_state = some 7 := by
  have h := fw_by_person_no_films_still_advances
      { film_works := [], genres := [],
        persons := [{ id := 4, full_name := "r", modified := 7 }],
        genre_film_works := [], person_film_works := [] }
      10 none (by decide) (by decide)
  exact ⟨h.1, h.2.trans (by decide)⟩

/-- Claim C7. If more than `L` person rows have `modified` greater than
the current watermark, the changed-persons poll returns exactly `L` rows
ordered ascending by `modified`, and the `persons` batch's new watermark
is the `modified` of the last (greatest) returned row. -/
theorem page_limit_boundary (db : Db) (L : Nat) (cs : Option Nat)
    (h : L < (db.persons.filter
      (fun p => lastModifiedOf cs < p.modified)).length) :
    (Repository.get_updated_persons db L (lastModifiedOf cs)).length = L ∧
    List.Sorted (modLE Person.modified)
      (Repository.get_updated_persons db L (lastModifiedOf cs)) ∧
    (∀ p, (Repository.get_updated_persons db L
        (lastModifiedOf cs)).getLast? = some p →
      (DataExtractor.get_updated_persons db L cs).new_state =
        some p.modified) := by
  refine ⟨?_, ?_, ?_⟩
  · unfold Repository.get_updated_persons
    rw [List.length_take,
      (List.perm_insertionSort (modLE Person.modified) _).length_eq]
    exact Nat.min_eq_left (Nat.le_of_lt h)
  · exact sorted_poll Person.modified db.persons L (lastModifiedOf cs)
  · intro p hlast
    have hne : Repository.get_updated_persons db L (lastModifiedOf cs) ≠ [] := by
      intro h0
      rw [h0] at hlast
      cases hlast
    rw [(persons_batch_ne db L cs hne).1]
    congr 1
    exact listMax_map_getLast Person.modified
      (sorted_poll Person.modified db.persons L (lastModifiedOf cs)) hlast

/-- Witness for C7: three persons changed past the watermark 0, page
limit 2: the poll returns the two oldest rows in ascending order and the
batch cursor is the last returned row's timestamp, 2. -/
theorem page_limit_boundary_witness :
    (Repository.get_updated_persons
        { film_works := [], genres := [],
          persons := [{ id := 1, full_name := "a", modified := 3 },
            { id := 2, full_name := "b", modified := 1 },
            { id := 3, full_name := "c", modified := 2 }],
          genre_film_works := [], person_film_works := [] }
        2 (lastModifiedOf (some 0))).length = 2 ∧
    (DataExtractor.get_updated_persons
        { film_works := [], genres := [],
          persons := [{ id := 1, full_name := "a", modified := 3 },
            { id := 2, full_name := "b", modified := 1 },
            { id := 3, full_name := "c", modified := 2 }],
          genre_film_works := [], person_film_works := [] }
        2 (some 0)).new_state = some 2 := by
  have h := page_limit_boundary
      { film_works := [], genres := [],
        persons := [{ id := 1, full_name := "a", modified := 3 },
          { id := 2, full_name := "b", modified := 1 },
          { id := 3, full_name := "c", modified := 2 }],
        genre_film_works := [], person_film_works := [] }
      2 (some 0) (by decide)
  exact ⟨h.1, h.2.2 { id := 3, full_name := "c", modified := 2 } (by decide)⟩

/-! ### Helper lemmas: cross-batch deduplication -/

lemma any_key_eq_lookup_isSome (d : List (Nat × FilmWork)) (k : Nat) :
    (d.any (fun p => p.1 == k)) = (List.lookup k d).isSome := by
  induction d with
  | nil => rfl
  | cons p t ih =>
    rcases p with ⟨pk, pv⟩
    rw [lookup_cons_pair]
    by_cases h : pk = k
    · subst h
      simp [List.any_cons]
    · simp [List.any_cons, beq_false_of_ne h, beq_false_of_ne (Ne.symm h), ih]

lemma mem_keys_of_lookup_isSome {d : List (Nat × FilmWork)} {k : Nat}
    (h : (List.lookup k d).isSome = true) : k ∈ d.map Prod.fst := by
  rw [← any_key_eq_lookup_isSome] at h
  rcases List.any_eq_true.mp h with ⟨p, hp, hbeq⟩
  exact List.mem_map.mpr ⟨p, hp, by simpa using hbeq⟩

lemma lookup_none_of_not_mem_keys {d : List (Nat × FilmWork)} {k : Nat}
    (h : k ∉ d.map Prod.fst) : List.lookup k d = none := by
  cases hl : List.lookup k d with
  | none => rfl
  | some v =>
    exact absurd (mem_keys_of_lookup_isSome (by rw [hl]; rfl)) h

lemma lookup_setdefault (d : List (Nat × FilmWork)) (f : FilmWork) (k : Nat) :
    List.lookup k (DataTransformer.setdefaultFilm d f) =
      Option.or (List.lookup k d) (List.lookup k [(f.id, f)]) := by
  unfold DataTransformer.setdefaultFilm
  by_cases hany : d.any (fun p => p.1 == f.id) = true
  · rw [if_pos hany]
    by_cases hk : k = f.id
    · subst hk
      have hs : (List.lookup f.id d).isSome = true := by
        rw [← any_key_eq_lookup_isSome]; exact hany
      rcases Option.isSome_iff_exists.mp hs with ⟨v, hv⟩
      rw [hv]; rfl
    · rw [lookup_cons_pair, if_neg (by simpa using hk)]
      simp [Option.or_none]
  · rw [if_neg hany, List.lookup_append]

lemma lookup_foldl_setdefault (l : List FilmWork) :
    ∀ (d : List (Nat × FilmWork)) (k : Nat),
      List.lookup k (l.foldl DataTransformer.setdefaultFilm d) =
        Option.or (List.lookup k d) (l.find? (fun f => f.id == k)) := by
  induction l with
  | nil => intro d k; simp [Option.or_none]
  | cons f t ih =>
    intro d k
    rw [List.foldl_cons, ih, lookup_setdefault, Option.or_assoc]
    congr 1
    rw [List.find?_cons]
    by_cases h : f.id = k
    · have hp : (f.id == k) = true := by simp [h]
      rw [hp, lookup_cons_pair, if_pos (by simp [h])]
      simp
    · have hp : (f.id == k) = false := beq_false_of_ne h
      rw [hp, lookup_cons_pair, if_neg (by simp [beq_iff_eq, Ne.symm h])]
      simp

/-- Invariant of the dedup association list: each pair's key is its film's
id, and the keys are pairwise distinct. -/
def InvAssoc (d : List (Nat × FilmWork)) : Prop :=
  (∀ p ∈ d, p.1 = p.2.id) ∧ (d.map Prod.fst).Nodup

lemma invAssoc_setdefault {d : List (Nat × FilmWork)} (f : FilmWork)
    (h : InvAssoc d) : InvAssoc (DataTransformer.setdefaultFilm d f) := by
  unfold DataTransformer.setdefaultFilm
  by_cases hany : d.any (fun p => p.1 == f.id) = true
  · rw [if_pos hany]; exact h
  · rw [if_neg hany]
    have hnotmem : f.id ∉ d.map Prod.fst := by
      intro hmem
      rcases List.mem_map.mp hmem with ⟨p, hp, hfst⟩
      exact hany (List.any_eq_true.mpr ⟨p, hp, by simp [hfst]⟩)
    constructor
    · intro p hp
      rcases List.mem_append.mp hp with h1 | h1
      · exact h.1 p h1
      · rw [List.eq_of_mem_singleton h1]
    · rw [List.map_append, List.map_singleton, ← List.concat_eq_append]
      exact List.Nodup.concat hnotmem h.2

lemma invAssoc_foldl (l : List FilmWork) (d : List (Nat × FilmWork))
    (h : InvAssoc d) : InvAssoc (l.foldl DataTransformer.setdefaultFilm d) := by
  induction l generalizing d with
  | nil => exact h
  | cons f t ih => exact ih (DataTransformer.setdefaultFilm d f) (invAssoc_setdefault f h)

lemma transform_by_film_id (f : FilmWork) :
    (DataTransformer.transform_by_film f).id = f.id := rfl

lemma filter_docs_eq_lookup : ∀ (d : List (Nat × FilmWork)), InvAssoc d →
    ∀ (k : Nat),
      ((d.map (fun p => DataTransformer.transform_by_film p.2)).filter
        (fun doc => doc.id == k)) =
      (match List.lookup k d with
       | some f => [DataTransformer.transform_by_film f]
       | none => []) := by
  intro d
  induction d with
  | nil => intro _ k; rfl
  | cons p t ih =>
    intro hinv k
    rcases p with ⟨pk, pv⟩
    have hpk : pk = pv.id := hinv.1 (pk, pv) (List.mem_cons_self _ _)
    have hnd2 : (pk :: t.map Prod.fst).Nodup := by
      have h2 := hinv.2
      rwa [List.map_cons] at h2
    have hnd := List.nodup_cons.mp hnd2
    have hinvt : InvAssoc t :=
      ⟨fun q hq => hinv.1 q (List.mem_cons_of_mem _ hq), hnd.2⟩
    simp only [List.map_cons, List.filter_cons]
    by_cases hk : pk = k
    · subst hk
      have hpred : ((DataTransformer.transform_by_film pv).id == pk) = true := by
        rw [transform_by_film_id, ← hpk]; simp
      rw [if_pos hpred, lookup_cons_pair, if_pos (by simp)]
      have hnone : List.lookup pk t = none :=
        lookup_none_of_not_mem_keys hnd.1
      rw [ih hinvt pk, hnone]
    · have hpred : ((DataTransformer.transform_by_film pv).id == k) = false := by
        rw [transform_by_film_id, ← hpk]; exact beq_false_of_ne hk
      rw [if_neg (by simp [hpred]), lookup_cons_pair,
        if_neg (by simp [beq_iff_eq, Ne.symm hk])]
      exact ih hinvt k

lemma transform_data_films_filter (l1 l2 l3 : List FilmWork)
    (gs : List Genre) (ps : List Person) (k : Nat) :
    ((DataTransformer.transform_data [l1, l2, l3] gs ps).1.filter
      (fun d => d.id == k)) =
    (match (l1 ++ l2 ++ l3).find? (fun f => f.id == k) with
     | some f => [DataTransformer.transform_by_film f]
     | none => []) := by
  have hinv : InvAssoc (([l1, l2, l3] : List (List FilmWork)).foldl
      (fun d film_list => film_list.foldl DataTransformer.setdefaultFilm d) []) := by
    show InvAssoc (l3.foldl DataTransformer.setdefaultFilm
      (l2.foldl DataTransformer.setdefaultFilm
        (l1.foldl DataTransformer.setdefaultFilm [])))
    exact invAssoc_foldl l3 _ (invAssoc_foldl l2 _ (invAssoc_foldl l1 _
      ⟨fun p hp => absurd hp (List.not_mem_nil p), List.nodup_nil⟩))
  show ((([l1, l2, l3] : List (List FilmWork)).foldl
      (fun d film_list => film_list.foldl DataTransformer.setdefaultFilm d)
      []).map (fun p => DataTransformer.transform_by_film p.2)).filter
      (fun d => d.id == k) = _
  rw [filter_docs_eq_lookup _ hinv k]
  congr 1
  show List.lookup k (l3.foldl DataTransformer.setdefaultFilm
      (l2.foldl DataTransformer.setdefaultFilm
        (l1.foldl DataTransformer.setdefaultFilm []))) = _
  rw [lookup_foldl_setdefault, lookup_foldl_setdefault,
    lookup_foldl_setdefault]
  simp [List.find?_append, Option.or_assoc]

/-- Sample film with id 1, used by the C5 dedup witness. -/
def filmA : FilmWork :=
  { id := 1, title := "t1", description := none, rating := none, modified := 5, genres := [], persons := [] }

/-- Second sample film with the same id 1, used by the C5 dedup witness. -/
def filmB : FilmWork :=
  { id := 1, title := "t2", description := none, rating := none, modified := 6, genres := [], persons := [] }

/-- Claim C5. When a film id occurs anywhere in the three film-bearing
batches passed to `transform_data` (in particular when it occurs in more
than one of them), exactly one document with that id is emitted for
delivery. -/
theorem transform_dedup_unique (l1 l2 l3 : List FilmWork) (gs : List Genre)
    (ps : List Person) (k : Nat)
    (h : k ∈ (l1 ++ l2 ++ l3).map FilmWork.id) :
    ((DataTransformer.transform_data [l1, l2, l3] gs ps).1.filter
      (fun d => d.id == k)).length = 1 := by
  rcases List.mem_map.mp h with ⟨f0, hf0, hid⟩
  have hsome : ((l1 ++ l2 ++ l3).find? (fun f => f.id == k)).isSome :=
    List.find?_isSome.mpr ⟨f0, hf0, by simp [hid]⟩
  rcases Option.isSome_iff_exists.mp hsome with ⟨f, hf⟩
  rw [transform_data_films_filter, hf]
  rfl

/-- Witness for C5: the same film id 1 appears in the first and the third
batch; exactly one document with id 1 is emitted. -/
theorem transform_dedup_unique_witness :
    ((DataTransformer.transform_data [[filmA], [], [filmB]] [] []).1.filter
      (fun d => d.id == 1)).length = 1 :=
  transform_dedup_unique [filmA] [] [filmB] [] [] 1 (by decide)

/-- Sample film with id 2 and title "early", used by the C10 witness. -/
def filmC : FilmWork :=
  { id := 2, title := "early", description := none, rating := none, modified := 5, genres := [], persons := [] }

/-- Sample film with id 2 and title "late", used by the C10 witness. -/
def filmD : FilmWork :=
  { id := 2, title := "late", description := none, rating := none, modified := 6, genres := [], persons := [] }

/-- Claim C10. Deduplication is deterministically first-occurrence-wins in
the fixed batch order `fw_by_person`, `fw_by_genre`, `filmworks` (the order
in which `transform_data` receives the film lists): the one document
emitted for an id is the transformation of the first film with that id in
the concatenation of the three batches; later occurrences never replace
it. -/
theorem transform_dedup_first_wins (l1 l2 l3 : List FilmWork)
    (gs : List Genre) (ps : List Person) (k : Nat) (film : FilmWork)
    (h : (l1 ++ l2 ++ l3).find? (fun f => f.id == k) = some film) :
    (DataTransformer.transform_data [l1, l2, l3] gs ps).1.filter
      (fun d => d.id == k) = [DataTransformer.transform_by_film film] := by
  rw [transform_data_films_filter, h]

/-- Witness for C10: film id 2 occurs in the first batch (title "early")
and again in the third batch (title "late"); the emitted document is the
first occurrence's. -/
theorem transform_dedup_first_wins_witness :
    (DataTransformer.transform_data [[filmC], [], [filmD]] [] []).1.filter
      (fun d => d.id == 2) = [DataTransformer.transform_by_film filmC] :=
  transform_dedup_first_wins [filmC] [] [filmD] [] [] 2 filmC (by decide)

/-! ### Helper lemmas: per-film transformation -/

lemma transform_by_film_genres (film : FilmWork) :
    (DataTransformer.transform_by_film film).genres =
      film.genres.filterMap (fun gfw =>
        match gfw.genre with
        | some g =>
          if g.name ≠ "" then some ({ id := g.id, name := g.name } : GenreDoc)
          else none
        | none => none) := rfl

lemma genres_filterMap_length : ∀ (l : List GenreFilmWork),
    (l.filterMap (fun gfw =>
      match gfw.genre with
      | some g =>
        if g.name ≠ "" then some ({ id := g.id, name := g.name } : GenreDoc)
        else none
      | none => none)).length =
    (l.filter (fun gfw =>
      match gfw.genre with
      | some g => g.name != ""
      | none => false)).length := by
  intro l
  induction l with
  | nil => rfl
  | cons gfw t ih =>
    cases hg : gfw.genre with
    | none => simpa [List.filterMap_cons, List.filter_cons, hg] using ih
    | some g =>
      by_cases hname : g.name = ""
      · simpa [List.filterMap_cons, List.filter_cons, hg, hname] using ih
      · simpa [List.filterMap_cons, List.filter_cons, hg, hname] using ih

/-- Claim C8. Shape of a transformed film document: the genre list keeps
exactly the genre links with a present genre of non-empty name (so no
emitted genre entry has an empty name and the emitted count is the count
of valid links); each role name field is the ", "-join of the names of
that role group (so it is the empty string for an empty group); and a
missing description becomes the empty string. -/
theorem transform_by_film_shape (film : FilmWork) :
    (∀ gd ∈ (DataTransformer.transform_by_film film).genres, gd.name ≠ "") ∧
    ((DataTransformer.transform_by_film film).genres.length =
      (film.genres.filter (fun gfw =>
        match gfw.genre with
        | some g => g.name != ""
        | none => false)).length) ∧
    ((DataTransformer.transform_by_film film).directors_names =
      String.intercalate ", "
        ((DataTransformer.transform_by_film film).directors.map PersonDoc.name)) ∧
    ((DataTransformer.transform_by_film film).actors_names =
      String.intercalate ", "
        ((DataTransformer.transform_by_film film).actors.map PersonDoc.name)) ∧
    ((DataTransformer.transform_by_film film).writers_names =
      String.intercalate ", "
        ((DataTransformer.transform_by_film film).writers.map PersonDoc.name)) ∧
    ((DataTransformer.transform_by_film film).directors = [] →
      (DataTransformer.transform_by_film film).directors_names = "") ∧
    ((DataTransformer.transform_by_film film).actors = [] →
      (DataTransformer.transform_by_film film).actors_names = "") ∧
    ((DataTransformer.transform_by_film film).writers = [] →
      (DataTransformer.transform_by_film film).writers_names = "") ∧
    (film.description = none →
      (DataTransformer.transform_by_film film).description = "") := by
  refine ⟨?_, ?_, rfl, rfl, rfl, ?_, ?_, ?_, ?_⟩
  · intro gd hgd
    rw [transform_by_film_genres] at hgd
    rcases List.mem_filterMap.mp hgd with ⟨gfw, hmem, hfn⟩
    cases hg : gfw.genre with
    | none => rw [hg] at hfn; cases hfn
    | some g =>
      rw [hg] at hfn
      have hfn2 : (if g.name ≠ "" then
          some ({ id := g.id, name := g.name } : GenreDoc) else none) =
          some gd := hfn
      by_cases hname : g.name = ""
      · rw [if_neg (not_not_intro hname)] at hfn2
        cases hfn2
      · rw [if_pos hname] at hfn2
        have hEq : ({ id := g.id, name := g.name } : GenreDoc) = gd :=
          Option.some.inj hfn2
        rw [← hEq]
        exact hname
  · rw [transform_by_film_genres]
    exact genres_filterMap_length film.genres
  · intro h
    have hrfl : (DataTransformer.transform_by_film film).directors_names =
        String.intercalate ", "
          ((DataTransformer.transform_by_film film).directors.map
            PersonDoc.name) := rfl
    rw [hrfl, h]
    rfl
  · intro h
    have hrfl : (DataTransformer.transform_by_film film).actors_names =
        String.intercalate ", "
          ((DataTransformer.transform_by_film film).actors.map
            PersonDoc.name) := rfl
    rw [hrfl, h]
    rfl
  · intro h
    have hrfl : (DataTransformer.transform_by_film film).writers_names =
        String.intercalate ", "
          ((DataTransformer.transform_by_film film).writers.map
            PersonDoc.name) := rfl
    rw [hrfl, h]
    rfl
  · intro h
    have hrfl : (DataTransformer.transform_by_film film).description =
        film.description.getD "" := rfl
    rw [hrfl, h]
    rfl

/-- Film used by the C8 witness: missing description, no person links, and
two genre links of which one has an empty name. -/
def filmE : FilmWork :=
  { id := 3, title := "w", description := none, rating := none, modified := 1,
    genres := [{ genre_id := 1, film_work_id := 3, genre := some { id := 1, name := "", modified := 1 } },
      { genre_id := 2, film_work_id := 3, genre := some { id := 2, name := "Drama", modified := 1 } }],
    persons := [] }

/-- Witness for C8: on `filmE` the document's description is empty, its
genre list has exactly one entry, and its (empty) director group joins to
the empty string. -/
theorem transform_by_film_shape_witness :
    (DataTransformer.transform_by_film filmE).description = "" ∧
    (DataTransformer.transform_by_film filmE).genres.length = 1 ∧
    (DataTransformer.transform_by_film filmE).directors_names = "" := by
  obtain ⟨_, h2, _, _, _, h6, _, _, h9⟩ := transform_by_film_shape filmE
  refine ⟨h9 rfl, ?_, h6 rfl⟩
  rw [h2]
  rfl
